import Mathlib

/-!
Verification development for the `langchain_ucp` repository.

The Python sources under `src/langchain_ucp/` are shallowly embedded here:

* `store.py` — the `UCPStore` checkout-session manager.  Its `async`
  methods are modelled in a state + request-trace + exception monad `M`
  over an abstract client environment `Env` (the HTTP client's responses
  are oracles, one pure function per endpoint).
* `client.py` — the transport's error classification
  (`_parse_error_response`, `_handle_response`) over a small JSON value
  model, and the discovery/version check (`_validate_version`,
  `discover`) with a faithful `YYYY-MM-DD` date parser mirroring
  `datetime.strptime(s, "%Y-%m-%d")`.
* `a2ui/prompt.py` — `validate_a2ui_json` / `parse_a2ui_response`, with
  `json.loads` and `jsonschema.validate` (external libraries) treated as
  oracles supplied in an environment.

Python exceptions are modelled with `Except`; Python `None` with
`Option`; Python truthiness is made explicit at each use site.
-/

namespace UCP

/-! ## Data model (store.py / ucp_sdk response and request shapes) -/

/-- `Product` from store.py: `{id, title}`. -/
structure Product where
  id : String
  title : String
deriving DecidableEq, Repr

/-- Models `ItemCreateRequest` / `ItemUpdateRequest` / the `item` field of a
response line item: a product reference `{id}`. -/
structure ItemRef where
  id : String
deriving DecidableEq, Repr

/-- A line item as it appears in `CheckoutResponse.line_items` and in
`LineItemUpdateRequest`: server id (absent for freshly appended items),
product reference, quantity. -/
structure LineItem where
  id : Option String
  item : ItemRef
  quantity : Int
deriving DecidableEq, Repr

/-- `LineItemCreateRequest`: no `id` field at all. -/
structure LineItemCreate where
  item : ItemRef
  quantity : Int
deriving DecidableEq, Repr

/-- `Buyer` from the UCP SDK: `{email, first_name, last_name}`. -/
structure Buyer where
  email : String
  first_name : String
  last_name : String
deriving DecidableEq, Repr

/-- One shipping option in a fulfillment group of a checkout response
(`options[i]`, read with `.get("id")`, hence the optional id). -/
structure FOption where
  id : Option String
deriving DecidableEq, Repr

/-- One option group of a fulfillment method (`groups[i]`). -/
structure FGroup where
  options : List FOption
deriving DecidableEq, Repr

/-- One destination of a fulfillment method (`destinations[i]`, read with
`.get("id")`). -/
structure Destination where
  id : Option String
deriving DecidableEq, Repr

/-- One fulfillment method of a checkout response (`methods[i]`); missing
`destinations`/`groups` keys are modelled as `[]`, matching the
`.get(..., [])` defaults in store.py. -/
structure FMethod where
  destinations : List Destination
  groups : List FGroup
deriving DecidableEq, Repr

/-- The `fulfillment` field of a checkout response; a missing `methods` key
is modelled as `[]` (matching `fulfillment_dict.get("methods", [])`). -/
structure Fulfillment where
  methods : List FMethod
deriving DecidableEq, Repr

/-- `CheckoutResponse`, restricted to the fields store.py reads. -/
structure Checkout where
  id : String
  currency : String
  status : String
  lineItems : Option (List LineItem)
  buyer : Option Buyer
  fulfillment : Option Fulfillment
deriving DecidableEq, Repr

/-- `existing.line_items or []` / `list(existing.line_items) if ... else []`. -/
def itemsOf (c : Checkout) : List LineItem :=
  c.lineItems.getD []

/-- The destination dict submitted in step 1 of `update_customer_details`
(the `extended_address` key is present only when truthy). -/
structure DestinationReq where
  id : String
  street_address : String
  address_locality : String
  address_region : String
  postal_code : String
  address_country : String
  first_name : String
  last_name : String
  extended_address : Option String
deriving DecidableEq, Repr

/-- The three shapes of the `fulfillment` request payload that
store.py submits (address entry, destination selection, option
selection). -/
inductive FulfillmentReq where
  | address (destination : DestinationReq)
  | selectDestination (selected_destination_id : Option String)
  | selectOption (selected_destination_id : Option String)
      (selected_option_id : Option String)
deriving DecidableEq, Repr

/-- `CheckoutUpdateRequest`: store.py always passes
`payment=PaymentUpdateRequest(instruments=[])`; the empty instruments list
is kept as a field to mirror that. -/
structure CheckoutUpdateRequest where
  id : String
  currency : String
  lineItems : List LineItem
  paymentInstruments : List String
  buyer : Option Buyer := none
  fulfillment : Option FulfillmentReq := none
deriving DecidableEq, Repr

/-- `CheckoutCreateRequest` as built by `_create_new_checkout`. -/
structure CheckoutCreateRequest where
  currency : String
  lineItems : List LineItemCreate
  paymentInstruments : List String
deriving DecidableEq, Repr

/-- The nested `credential` dict of the synthetic payment instrument. -/
structure Credential where
  type : String
  token : String
deriving DecidableEq, Repr

/-- The `payment_data` dict built in `complete_checkout`. -/
structure PaymentData where
  id : String
  handler_id : String
  handler_name : String
  type : String
  brand : String
  last_digits : String
  credential : Credential
deriving DecidableEq, Repr

/-- The payment instrument dict `complete_checkout` builds:
`id = "inst_" + uuid4().hex[:8]`, fixed demo card shape. -/
def completionPaymentData (freshHex handlerId token : String) : PaymentData :=
  { id := "inst_" ++ freshHex
    handler_id := handlerId
    handler_name := handlerId
    type := "card"
    brand := "Visa"
    last_digits := "4242"
    credential := { type := "token", token := token } }

/-! ## Errors -/

/-- A minimal JSON value model (numbers restricted to integers; floats do
not occur in the claims under verification). -/
inductive JVal where
  | null
  | bool (b : Bool)
  | num (n : Int)
  | str (s : String)
  | arr (elems : List JVal)
  | obj (fields : List (String × JVal))

/-- One entry of `UCPValidationError.field_errors`:
`{"field": ..., "message": ...}` (the message is whatever JSON value the
`msg` key held). -/
structure FieldError where
  field : String
  message : JVal

/-- The transport's typed error taxonomy from client.py
(`UCPValidationError`, `UCPNotFoundError`, `UCPRequestError`, the
`UCPError` base used as the generic catch-all, and `UCPVersionError`). -/
inductive UCPErr where
  | validationError (message : JVal) (fieldErrors : List FieldError)
  | notFoundError (message : JVal) (statusCode : Nat)
  | requestError (message : String) (statusCode : Nat)
  | protocolError (message : JVal) (statusCode : Nat) (details : JVal)
  | versionError (clientVersion : String) (merchantVersion : String)

/-- Unhandled Python runtime errors that the embedded code can raise. -/
inductive PyErr where
  | attributeError
  | typeError
  | jsonDecodeError
deriving DecidableEq, Repr

/-- Everything a `UCPStore` method can raise: a local `ValueError`, a
propagated client error, or an unhandled runtime error. -/
inductive StoreError where
  | valueError (msg : String)
  | clientError (e : UCPErr)
  | pyError (e : PyErr)

/-! ## The store monad: state + request trace + exceptions over an
abstract client environment -/

/-- One HTTP request issued through `UCPClient`, as observed by the store
layer. -/
inductive Request where
  | get (checkoutId : String)
  | update (checkoutId : String) (req : CheckoutUpdateRequest)
  | create (req : CheckoutCreateRequest)
  | complete (checkoutId : String) (payment : PaymentData)
      (riskSignals : List (String × String))
  | cancel (checkoutId : String)

/-- The client environment: one pure oracle per `UCPClient` method used by
the store, plus the value `uuid4().hex[:8]` returns (each store operation
draws at most one). -/
structure Env where
  getCheckout : String → Except UCPErr Checkout
  updateCheckout : String → CheckoutUpdateRequest → Except UCPErr Checkout
  createCheckout : CheckoutCreateRequest → Except UCPErr Checkout
  completeCheckout : String → PaymentData → Except UCPErr Checkout
  cancelCheckout : String → Except UCPErr Checkout
  freshHex : String

/-- The mutable fields of `UCPStore` relevant to the claims
(`self.products`, `self.checkout_id`, `self._checkout_cache`). -/
structure StoreState where
  products : List Product
  checkoutId : Option String
  cache : Option Checkout

/-- Result of running one store operation: the requests it issued (in
order), the store state afterwards, and its return value or raised
error. -/
structure OpRes (α : Type) where
  trace : List Request
  state : StoreState
  res : Except StoreError α

/-- The store monad. -/
abbrev M (α : Type) : Type := Env → StoreState → OpRes α

def M.pure (a : α) : M α := fun _ s => ⟨[], s, .ok a⟩

def M.bind (x : M α) (f : α → M β) : M β := fun env s =>
  let r := x env s
  match r.res with
  | .ok a =>
    let r2 := f a env r.state
    ⟨r.trace ++ r2.trace, r2.state, r2.res⟩
  | .error e => ⟨r.trace, r.state, .error e⟩

instance : Monad M where
  pure := M.pure
  bind := M.bind

@[simp] theorem bind_def (x : M α) (f : α → M β) : (x >>= f) = M.bind x f := rfl

@[simp] theorem pure_def (a : α) : (Pure.pure a : M α) = M.pure a := rfl

/-- Read the store's fields. -/
def getS : M StoreState := fun _ s => ⟨[], s, .ok s⟩

/-- `self.checkout_id = v`. -/
def setCheckoutId (v : Option String) : M Unit :=
  fun _ s => ⟨[], { s with checkoutId := v }, .ok ()⟩

/-- `self._checkout_cache = v`. -/
def setCache (v : Option Checkout) : M Unit :=
  fun _ s => ⟨[], { s with cache := v }, .ok ()⟩

/-- `raise e`. -/
def throwM (e : StoreError) : M α := fun _ s => ⟨[], s, .error e⟩

/-- `uuid4().hex[:8]`. -/
def freshHexM : M String := fun env s => ⟨[], s, .ok env.freshHex⟩

def liftClient (r : Except UCPErr Checkout) : Except StoreError Checkout :=
  match r with
  | .ok c => .ok c
  | .error e => .error (.clientError e)

/-- `await self.client.get_checkout(cid)`. -/
def clientGetCheckout (cid : String) : M Checkout :=
  fun env s => ⟨[.get cid], s, liftClient (env.getCheckout cid)⟩

/-- `await self.client.update_checkout(cid, req)`. -/
def clientUpdateCheckout (cid : String) (req : CheckoutUpdateRequest) : M Checkout :=
  fun env s => ⟨[.update cid req], s, liftClient (env.updateCheckout cid req)⟩

/-- `await self.client.create_checkout(req)`. -/
def clientCreateCheckout (req : CheckoutCreateRequest) : M Checkout :=
  fun env s => ⟨[.create req], s, liftClient (env.createCheckout req)⟩

/-- `await self.client.complete_checkout(cid, payment_data, risk_signals)`. -/
def clientCompleteCheckout (cid : String) (pd : PaymentData)
    (risk : List (String × String)) : M Checkout :=
  fun env s => ⟨[.complete cid pd risk], s, liftClient (env.completeCheckout cid pd)⟩

/-- `await self.client.cancel_checkout(cid)`. -/
def clientCancelCheckout (cid : String) : M Checkout :=
  fun env s => ⟨[.cancel cid], s, liftClient (env.cancelCheckout cid)⟩

/-- Python `try: body except Exception: handler` — every modelled error is
an `Exception` subclass, so the handler catches all of them. -/
def catchAll (body handler : M α) : M α := fun env s =>
  let r := body env s
  match r.res with
  | .ok _ => r
  | .error _ =>
    let r2 := handler env r.state
    ⟨r.trace ++ r2.trace, r2.state, r2.res⟩

/-! ## Store operations (store.py) -/

/-- `UCPStore.get_product`: `self.products.get(product_id)`.  The dict was
built by inserting catalog products in order, so a duplicated id keeps the
last occurrence — hence the reversed search. -/
def get_product (products : List Product) (productId : String) : Option Product :=
  products.reverse.find? (fun p => p.id = productId)

/-- The merge loop inside `add_to_checkout` (store.py lines 166–195):
rebuild every fetched line item, incrementing the quantity of those whose
product id matches (and preserving their server `id`); if none matched,
append a new line item without an `id`. -/
def mergeAdd (items : List LineItem) (productId : String) (quantity : Int) :
    List LineItem :=
  let updated_items := items.map fun item =>
    if item.item.id = productId then
      { id := item.id, item := { id := item.item.id }, quantity := item.quantity + quantity }
    else
      { id := item.id, item := { id := item.item.id }, quantity := item.quantity }
  let found := items.any fun item => item.item.id = productId
  if found then updated_items
  else updated_items ++ [{ id := none, item := { id := productId }, quantity := quantity }]

/-- `UCPStore._create_new_checkout`. -/
def _create_new_checkout (line_items : List LineItemCreate) : M Checkout := do
  let create_req : CheckoutCreateRequest :=
    { currency := "USD", lineItems := line_items, paymentInstruments := [] }
  let checkout ← clientCreateCheckout create_req
  setCheckoutId (some checkout.id)
  pure checkout

/-- `UCPStore.add_to_checkout`.  Note `product.id = product_id` whenever
`get_product` succeeds (the dict is keyed by `product.id`), so the merge
is invoked with the single id `product_id`. -/
def add_to_checkout (product_id : String) (quantity : Int) : M Checkout := do
  let s ← getS
  match get_product s.products product_id with
  | none =>
    throwM (.valueError ("Product " ++ product_id ++ " not found in catalog"))
  | some product =>
    let line_item : LineItemCreate := { item := { id := product.id }, quantity := quantity }
    let checkout ←
      match s.checkoutId with
      | some cid =>
        catchAll
          (do
            let existing ← clientGetCheckout cid
            let existing_items := itemsOf existing
            let updated_items := mergeAdd existing_items product_id quantity
            let update_req : CheckoutUpdateRequest :=
              { id := cid, currency := existing.currency,
                lineItems := updated_items, paymentInstruments := [] }
            clientUpdateCheckout cid update_req)
          (_create_new_checkout [line_item])
      | none => _create_new_checkout [line_item]
    setCache (some checkout)
    pure checkout

/-- `UCPStore.remove_from_checkout`. -/
def remove_from_checkout (product_id : String) : M Checkout := do
  let s ← getS
  match s.checkoutId with
  | none => throwM (.valueError "No active checkout session")
  | some cid => do
    let existing ← clientGetCheckout cid
    let updated_items :=
      (itemsOf existing).filterMap fun item =>
        if item.item.id ≠ product_id then
          some { id := item.id, item := { id := item.item.id }, quantity := item.quantity }
        else none
    let update_req : CheckoutUpdateRequest :=
      { id := cid, currency := existing.currency,
        lineItems := updated_items, paymentInstruments := [] }
    let checkout ← clientUpdateCheckout cid update_req
    setCache (some checkout)
    pure checkout

/-- `UCPStore.update_checkout_quantity`. -/
def update_checkout_quantity (product_id : String) (quantity : Int) : M Checkout := do
  let s ← getS
  match s.checkoutId with
  | none => throwM (.valueError "No active checkout session")
  | some cid =>
    if quantity = 0 then
      remove_from_checkout product_id
    else do
      let existing ← clientGetCheckout cid
      let updated_items :=
        (itemsOf existing).map fun item =>
          if item.item.id = product_id then
            ({ id := item.id, item := { id := item.item.id }, quantity := quantity } : LineItem)
          else
            { id := item.id, item := { id := item.item.id }, quantity := item.quantity }
      let update_req : CheckoutUpdateRequest :=
        { id := cid, currency := existing.currency,
          lineItems := updated_items, paymentInstruments := [] }
      let checkout ← clientUpdateCheckout cid update_req
      setCache (some checkout)
      pure checkout

/-- `UCPStore.get_checkout`. -/
def get_checkout : M (Option Checkout) := do
  let s ← getS
  match s.checkoutId with
  | none => pure none
  | some cid => do
    let checkout ← clientGetCheckout cid
    setCache (some checkout)
    pure (some checkout)

/-- `UCPStore.start_payment`: returns either the checkout (`Sum.inl`) or
the human-readable "missing prerequisites" message (`Sum.inr`).
`not checkout.buyer` is true exactly when `buyer` is `None` (a pydantic
model instance is always truthy), and likewise for `fulfillment`
(`hasattr` always holds on the model). -/
def start_payment : M (Checkout ⊕ String) := do
  let s ← getS
  match s.checkoutId with
  | none => throwM (.valueError "No active checkout session")
  | some cid => do
    let checkout ← clientGetCheckout cid
    let missing : List String :=
      (if checkout.buyer = none then ["buyer email address"] else []) ++
      (if checkout.fulfillment = none then ["shipping address"] else [])
    if missing ≠ [] then
      pure (.inr ("Please provide: " ++ String.intercalate ", " missing))
    else do
      setCache (some checkout)
      pure (.inl checkout)

/-- `UCPStore.complete_checkout`. -/
def complete_checkout (payment_handler_id payment_token : String) : M Checkout := do
  let s ← getS
  match s.checkoutId with
  | none => throwM (.valueError "No active checkout session")
  | some cid => do
    let checkout ← clientGetCheckout cid
    if checkout.status ≠ "ready_for_complete" then
      throwM (.valueError ("Checkout not ready. Status: " ++ checkout.status ++
        ". Please add buyer info and shipping address first."))
    else do
      let hex ← freshHexM
      let payment_data := completionPaymentData hex payment_handler_id payment_token
      let completed ← clientCompleteCheckout cid payment_data
        [("device_id", "langchain_agent")]
      setCheckoutId none
      setCache none
      pure completed

/-- `UCPStore.cancel_checkout`. -/
def cancel_checkout : M Checkout := do
  let s ← getS
  match s.checkoutId with
  | none => throwM (.valueError "No active checkout session")
  | some cid => do
    let checkout ← clientCancelCheckout cid
    setCheckoutId none
    setCache none
    pure checkout

/-- Python truthiness of an optional string (`if email:`): false for
`None` and for the empty string. -/
def truthyStr : Option String → Bool
  | some s => s ≠ ""
  | none => false

/-- `UCPStore.update_customer_details`, including the three-step
fulfillment negotiation.  When a server response carries
`fulfillment = None`, `checkout_dict.get("fulfillment", {})` yields `None`
(the key is present after `model_dump`), and the subsequent
`.get("methods", [])` raises `AttributeError` — modelled explicitly. -/
def update_customer_details (first_name last_name street_address address_locality
    address_region postal_code address_country : String)
    (extended_address email : Option String) : M Checkout := do
  let s ← getS
  match s.checkoutId with
  | none => throwM (.valueError "No active checkout session")
  | some cid => do
    let existing ← clientGetCheckout cid
    let line_items := (itemsOf existing).map fun item =>
      ({ id := item.id, item := { id := item.item.id }, quantity := item.quantity } : LineItem)
    let buyer : Option Buyer :=
      if truthyStr email then
        some { email := email.getD "", first_name := first_name, last_name := last_name }
      else none
    let hex ← freshHexM
    let dest_id := "dest_" ++ hex
    let fulfillment1 : FulfillmentReq := .address
      { id := dest_id, street_address := street_address,
        address_locality := address_locality, address_region := address_region,
        postal_code := postal_code, address_country := address_country,
        first_name := first_name, last_name := last_name,
        extended_address := if truthyStr extended_address then extended_address else none }
    let update_req1 : CheckoutUpdateRequest :=
      { id := cid, currency := existing.currency, lineItems := line_items,
        paymentInstruments := [], buyer := buyer, fulfillment := some fulfillment1 }
    let checkout ← clientUpdateCheckout cid update_req1
    match checkout.fulfillment with
    | none => throwM (.pyError .attributeError)
    | some f1 =>
      match f1.methods with
      | [] => do
        setCache (some checkout)
        pure checkout
      | method :: _ =>
        match method.destinations with
        | [] => do
          -- "Step 2: No destinations found" — falls through to the end
          setCache (some checkout)
          pure checkout
        | dest :: _ => do
          let dest_id2 := dest.id
          let update_req2 : CheckoutUpdateRequest :=
            { id := cid, currency := checkout.currency, lineItems := line_items,
              paymentInstruments := [], buyer := buyer,
              fulfillment := some (.selectDestination dest_id2) }
          let checkout2 ← clientUpdateCheckout cid update_req2
          match checkout2.fulfillment with
          | none => throwM (.pyError .attributeError)
          | some f2 =>
            match f2.methods with
            | [] => do
              setCache (some checkout2)
              pure checkout2
            | method2 :: _ =>
              match method2.groups with
              | [] => do
                setCache (some checkout2)
                pure checkout2
              | group :: _ =>
                match group.options with
                | [] => do
                  setCache (some checkout2)
                  pure checkout2
                | opt :: _ => do
                  let update_req3 : CheckoutUpdateRequest :=
                    { id := cid, currency := checkout2.currency, lineItems := line_items,
                      paymentInstruments := [], buyer := buyer,
                      fulfillment := some (.selectOption dest_id2 opt.id) }
                  let checkout3 ← clientUpdateCheckout cid update_req3
                  setCache (some checkout3)
                  pure checkout3

/-! ## Uniform view of the store operations (for state-preservation
claims) -/

/-- Return values of the store operations, unified. -/
inductive StoreRet where
  | checkout (c : Checkout)
  | checkoutOrMsg (v : Checkout ⊕ String)
  | optCheckout (c : Option Checkout)

/-- One invocation of a store operation (public mutating/reading API). -/
inductive StoreOp where
  | add (product_id : String) (quantity : Int)
  | remove (product_id : String)
  | updateQty (product_id : String) (quantity : Int)
  | updateCustomer (first_name last_name street_address address_locality
      address_region postal_code address_country : String)
      (extended_address email : Option String)
  | startPayment
  | complete (payment_handler_id payment_token : String)
  | cancel
  | getCheckoutOp

/-- Dispatch an operation. -/
def runOp : StoreOp → M StoreRet
  | .add pid q => add_to_checkout pid q >>= fun c => pure (.checkout c)
  | .remove pid => remove_from_checkout pid >>= fun c => pure (.checkout c)
  | .updateQty pid q => update_checkout_quantity pid q >>= fun c => pure (.checkout c)
  | .updateCustomer fn ln sa al ar pc ac ea em =>
    update_customer_details fn ln sa al ar pc ac ea em >>= fun c => pure (.checkout c)
  | .startPayment => start_payment >>= fun v => pure (.checkoutOrMsg v)
  | .complete h t => complete_checkout h t >>= fun c => pure (.checkout c)
  | .cancel => cancel_checkout >>= fun c => pure (.checkout c)
  | .getCheckoutOp => get_checkout >>= fun c => pure (.optCheckout c)

/-! ## JSON helpers (Python semantics made explicit) -/

/-- Python truthiness of a JSON value. -/
def truthy : JVal → Bool
  | .null => false
  | .bool b => b
  | .num n => n ≠ 0
  | .str s => s ≠ ""
  | .arr elems => !elems.isEmpty
  | .obj fields => !fields.isEmpty

/-- `dict.get(k)` on an object's fields. -/
def dictGet (fields : List (String × JVal)) (k : String) : Option JVal :=
  (fields.find? (fun kv => kv.1 = k)).map (fun kv => kv.2)

/-- `v.get(k)` for an arbitrary decoded JSON value: any non-object
(`None`, list, string, number, bool) has no `.get` attribute, so Python
raises `AttributeError`. -/
def jvGet (v : JVal) (k : String) : Except PyErr (Option JVal) :=
  match v with
  | .obj fields => .ok (dictGet fields k)
  | _ => .error .attributeError

/-- `a or b` where `a` came from a `dict.get` (absent key ⇒ `None` ⇒
falsy). -/
def pyOr (a : Option JVal) (b : JVal) : JVal :=
  match a with
  | some v => if truthy v then v else b
  | none => b

mutual

/-- Python `repr` of a decoded JSON value (string escaping inside `repr`
of strings is not modelled; no claim exercises it). -/
def reprJVal : JVal → String
  | .str s => "'" ++ s ++ "'"
  | .num n => toString n
  | .bool b => if b then "True" else "False"
  | .null => "None"
  | .arr elems => "[" ++ reprJList elems ++ "]"
  | .obj fields => "\x7b" ++ reprJFields fields ++ "\x7d"

def reprJList : List JVal → String
  | [] => ""
  | [v] => reprJVal v
  | v :: rest => reprJVal v ++ ", " ++ reprJList rest

def reprJFields : List (String × JVal) → String
  | [] => ""
  | [kv] => "'" ++ kv.1 ++ "': " ++ reprJVal kv.2
  | kv :: rest => "'" ++ kv.1 ++ "': " ++ reprJVal kv.2 ++ ", " ++ reprJFields rest

end

/-- Python `str(v)` at top level: bare text for strings, `repr` otherwise
(as used in f-strings and `".".join(str(l) for l in loc)`). -/
def pyStr (v : JVal) : String :=
  match v with
  | .str s => s
  | v => reprJVal v

/-! ## Transport error classification (client.py) -/

/-- The part of an `httpx.Response` the transport reads: status code, the
result of `response.json()` (`none` = raises a decode error), and
`response.text`. -/
structure HttpResponse where
  statusCode : Nat
  jsonBody : Option JVal
  text : String

/-- `error_data` after the `try: response.json() except: ...` preamble of
`_parse_error_response` (`response.text or "Unknown error"`). -/
def errorDataOf (resp : HttpResponse) : JVal :=
  match resp.jsonBody with
  | some j => j
  | none => .obj [("message", .str (if resp.text = "" then "Unknown error" else resp.text))]

/-- `".".join(str(l) for l in loc) if loc else "unknown"`: falsy `loc`
short-circuits to `"unknown"`; otherwise `loc` must be iterable (a list
joins its elements' `str`, a string joins its characters, a dict joins
its keys; anything else raises `TypeError`). -/
def fieldOfLoc (loc : JVal) : Except PyErr String :=
  if truthy loc then
    match loc with
    | .arr elems => .ok (String.intercalate "." (elems.map pyStr))
    | .str s => .ok (String.intercalate "." (s.data.map (fun c => String.singleton c)))
    | .obj fields => .ok (String.intercalate "." (fields.map (fun kv => kv.1)))
    | _ => .error .typeError
  else .ok "unknown"

/-- The loop body over `error_data["detail"]`:
`loc = err.get("loc", [])`, `msg = err.get("msg", "invalid")`. -/
def fieldErrorOfItem (err : JVal) : Except PyErr FieldError := do
  let locOpt ← jvGet err "loc"
  let loc := locOpt.getD (.arr [])
  let field ← fieldOfLoc loc
  let msgOpt ← jvGet err "msg"
  let msg := msgOpt.getD (.str "invalid")
  pure { field := field, message := msg }

/-- The `for err in error_data["detail"]` loop building `field_errors`
in order, the first failing item's exception propagating. -/
def fieldErrorsOfDetail : List JVal → Except PyErr (List FieldError)
  | [] => .ok []
  | err :: rest => do
    let fe ← fieldErrorOfItem err
    let fes ← fieldErrorsOfDetail rest
    pure (fe :: fes)

/-- `_parse_error_response` from client.py.  `Except.error` is an
*unhandled* Python exception escaping the function (e.g. `AttributeError`
when the decoded body is not a dict). -/
def _parse_error_response (resp : HttpResponse) : Except PyErr UCPErr := do
  let status_code := resp.statusCode
  let error_data := errorDataOf resp
  let msg1 ← jvGet error_data "message"
  let msg2 ← jvGet error_data "detail"
  let message : JVal := pyOr msg1 (pyOr msg2 (.str (pyStr error_data)))
  if status_code = 422 then
    match msg2 with
    | some (.arr detail) => do
      let field_errors ← fieldErrorsOfDetail detail
      let n := field_errors.length
      pure (.validationError
        (.str ("Invalid request: " ++ toString n ++ " field(s) have errors"))
        field_errors)
    | _ => pure (.validationError message [])
  else if status_code = 404 then
    pure (.notFoundError message status_code)
  else if status_code = 400 then
    pure (.requestError ("Bad request: " ++ pyStr message) status_code)
  else
    pure (.protocolError message status_code error_data)

/-- `response.is_success` (httpx): status in the 2xx range. -/
def responseIsSuccess (resp : HttpResponse) : Bool :=
  200 ≤ resp.statusCode && resp.statusCode < 300

/-- Outcome of `_handle_response`: the decoded body, a raised typed UCP
error, or an unhandled Python exception. -/
inductive HandleOutcome where
  | success (body : JVal)
  | ucpFailure (e : UCPErr)
  | pyFailure (e : PyErr)

/-- `UCPClient._handle_response`. -/
def _handle_response (resp : HttpResponse) : HandleOutcome :=
  if responseIsSuccess resp then
    match resp.jsonBody with
    | some j => .success j
    | none => .pyFailure .jsonDecodeError
  else
    match _parse_error_response resp with
    | .ok e => .ucpFailure e
    | .error pe => .pyFailure pe

/-! ## Discovery and version validation (client.py) -/

/-- A calendar date as produced by
`datetime.strptime(s, "%Y-%m-%d").date()`. -/
structure PDate where
  year : Nat
  month : Nat
  day : Nat
deriving DecidableEq, Repr

def isLeapYear (y : Nat) : Bool :=
  (y % 4 = 0 && y % 100 ≠ 0) || y % 400 = 0

def daysInMonth (y m : Nat) : Nat :=
  if m = 2 then (if isLeapYear y then 29 else 28)
  else if m = 4 || m = 6 || m = 9 || m = 11 then 30
  else 31

/-- One numeric strptime field: 1 to `maxLen` digits. -/
def parseNatField (cs : List Char) (maxLen : Nat) : Option Nat :=
  if cs.length = 0 || cs.length > maxLen || ¬ cs.all Char.isDigit then none
  else some (cs.foldl (fun acc c => acc * 10 + (c.toNat - 48)) 0)

/-- Split a character list on a separator character (the character-level
counterpart of `str.split(sep)`). -/
def splitOnChar (sep : Char) : List Char → List (List Char)
  | [] => [[]]
  | x :: xs =>
    match splitOnChar sep xs with
    | [] => [[]]
    | r :: rs => if x = sep then [] :: r :: rs else (x :: r) :: rs

/-- `datetime.strptime(s, "%Y-%m-%d")`: rejects anything but
`year-month-day` with a 1–4 digit year in `[1, 9999]`, 1–2 digit month in
`[1, 12]`, and a day valid for that month (leap years included); any
leftover text makes the split produce the wrong shape and fail, matching
strptime's "unconverted data" error. -/
def parseDate (s : String) : Option PDate :=
  match splitOnChar '-' s.data with
  | [ys, ms, ds] => do
    let y ← parseNatField ys 4
    let m ← parseNatField ms 2
    let d ← parseNatField ds 2
    if 1 ≤ y ∧ 1 ≤ m ∧ m ≤ 12 ∧ 1 ≤ d ∧ d ≤ daysInMonth y m then
      some ⟨y, m, d⟩
    else none
  | _ => none

/-- Chronological (lexicographic) order on dates, as `datetime.date`
comparison. -/
def pdateLtB (a b : PDate) : Bool :=
  a.year < b.year ||
  (a.year = b.year && (a.month < b.month ||
    (a.month = b.month && a.day < b.day)))

/-- The module constant `UCP_VERSION` from client.py. -/
def UCP_VERSION : String := "2026-01-11"

/-- `UCPClient._validate_version`: parse merchant and agent versions; a
`ValueError` from either parse is caught, logged and ignored; otherwise
raise `UCPVersionError` exactly when the agent's version is strictly
newer than the merchant's. -/
def _validate_version (merchant_version_str : String) : Except UCPErr Unit :=
  match parseDate merchant_version_str, parseDate UCP_VERSION with
  | some merchant_version, some agent_version =>
    if pdateLtB merchant_version agent_version then
      .error (.versionError UCP_VERSION merchant_version_str)
    else .ok ()
  | _, _ => .ok ()

/-- The merchant discovery profile, restricted to the field the version
check reads (`profile.ucp.version`). -/
structure UcpProfile where
  version : String
deriving DecidableEq, Repr

/-- The client state relevant to discovery: `self._cached_profile`. -/
structure ClientState where
  cachedProfile : Option UcpProfile

/-- Oracle for `GET /.well-known/ucp` + `_handle_response` +
`model_validate`. -/
structure DiscoveryEnv where
  fetchProfile : Except UCPErr UcpProfile

/-- `UCPClient.discover`: cached profile short-circuits; otherwise fetch,
optionally validate the version (failure propagates, nothing cached),
then cache and return the profile. -/
def discover (env : DiscoveryEnv) (st : ClientState)
    (use_cache validate_version : Bool) :
    Except UCPErr (UcpProfile × ClientState) :=
  match (if use_cache then st.cachedProfile else none) with
  | some p => .ok (p, st)
  | none =>
    match env.fetchProfile with
    | .error e => .error e
    | .ok profile =>
      if validate_version then
        match _validate_version profile.version with
        | .error e => .error e
        | .ok _ => .ok (profile, { cachedProfile := some profile })
      else .ok (profile, { cachedProfile := some profile })

/-! ## A2UI response parsing (a2ui/prompt.py) -/

/-- `A2UI_DELIMITER` from a2ui/prompt.py. -/
def A2UI_DELIMITER : String := "---a2ui_JSON---"

/-- External libraries used by `validate_a2ui_json`, as oracles:
`json.loads` (`none` = `JSONDecodeError`) and `jsonschema.validate`
against the wrapped-array A2UI schema (`jsonschema` is assumed
installed, so the `ImportError` branch is dead). -/
structure A2UIEnv where
  loads : String → Option JVal
  schemaValid : JVal → Bool

/-- Python `s.lstrip(chars)`: drop leading characters belonging to the
set. -/
def pyLstripChars (chars : List Char) (s : String) : String :=
  ⟨s.data.dropWhile (fun c => c ∈ chars)⟩

/-- Python `s.rstrip(chars)`. -/
def pyRstripChars (chars : List Char) (s : String) : String :=
  ⟨((s.data.reverse.dropWhile (fun c => c ∈ chars)).reverse)⟩

/-- Python `s.strip()` (whitespace on both sides). -/
def pyStrip (s : String) : String :=
  ⟨(((s.data.dropWhile Char.isWhitespace).reverse.dropWhile Char.isWhitespace).reverse)⟩

/-- `validate_a2ui_json`: strip, remove markdown fences, `json.loads`,
auto-wrap a single object, require a list, schema-validate.  The returned
triple is `(is_valid, parsed_data, error_message)`; exception texts inside
the error messages are abbreviated (no claim reads them). -/
def validate_a2ui_json (env : A2UIEnv) (json_string : String) :
    Bool × Option (List JVal) × Option String :=
  let cleaned := pyStrip json_string
  let cleaned :=
    if "```".data.isPrefixOf cleaned.data then
      pyStrip (pyRstripChars "```".data
        (pyLstripChars "```".data (pyLstripChars "```json".data cleaned)))
    else cleaned
  match env.loads cleaned with
  | none => (false, none, some "Invalid JSON")
  | some parsed =>
    let parsedList : Option (List JVal) :=
      match parsed with
      | .obj fields => some [JVal.obj fields]
      | .arr elems => some elems
      | _ => none
    match parsedList with
    | none => (false, none, some "A2UI JSON must be a list of messages")
    | some msgs =>
      if env.schemaValid (.arr msgs) then (true, some msgs, none)
      else (false, none, some "Schema validation failed")

/-- First occurrence of `delim` in a character list: `some (pre, post)`
with the delimiter removed, i.e. Python `s.split(delim, 1)` when the
delimiter occurs (`none` = `delim not in s`). -/
def findDelim (delim : List Char) : List Char → Option (List Char × List Char)
  | [] => none
  | c :: rest =>
    if delim.isPrefixOf (c :: rest) then some ([], (c :: rest).drop delim.length)
    else
      match findDelim delim rest with
      | some (pre, post) => some (c :: pre, post)
      | none => none

/-- `parse_a2ui_response`. -/
def parse_a2ui_response (env : A2UIEnv) (response : String) :
    String × Option (List JVal) :=
  match findDelim A2UI_DELIMITER.data response.data with
  | none => (response, none)
  | some (pre, post) =>
    let text_content := pyStrip ⟨pre⟩
    let json_string := pyStrip ⟨post⟩
    if json_string = "" then (text_content, none)
    else
      match validate_a2ui_json env json_string with
      | (true, parsed, _) => (text_content, parsed)
      | (false, _, _) => (text_content, none)

/-! ## Echo server model for the add-to-checkout accumulation claim -/

/-- The checkout an echoing server answers with: submitted line items
echoed back unchanged. -/
def echoCheckout (cid st : String) (items : List LineItem) : Checkout :=
  { id := cid, currency := "USD", status := st, lineItems := some items,
    buyer := none, fulfillment := none }

/-- A client environment backed by a server that echoes submitted line
items: `get` returns the current items (404 when no session exists),
`update` echoes the submitted list, `create` echoes the created list. -/
def echoEnv (cid st : String) (serverItems : Option (List LineItem)) : Env :=
  { getCheckout := fun i =>
      match serverItems with
      | some items => .ok (echoCheckout i st items)
      | none => .error (.notFoundError (.str "not found") 404)
    updateCheckout := fun i req =>
      .ok { id := i, currency := req.currency, status := st,
            lineItems := some req.lineItems, buyer := none, fulfillment := none }
    createCheckout := fun req =>
      .ok { id := cid, currency := req.currency, status := st,
            lineItems := some (req.lineItems.map fun li =>
              { id := none, item := li.item, quantity := li.quantity }),
            buyer := none, fulfillment := none }
    completeCheckout := fun _ _ => .error (.requestError "unsupported" 400)
    cancelCheckout := fun _ => .error (.requestError "unsupported" 400)
    freshHex := "" }

/-- A freshly constructed `UCPStore` over a catalog. -/
def initialStore (catalog : List Product) : StoreState :=
  { products := catalog, checkoutId := none, cache := none }

/-- One `add_to_checkout` call against the echo server, tracking the
server's line items alongside the store state. -/
def addLoopStep (cid st product_id : String)
    (acc : StoreState × Option (List LineItem)) (qty : Int) :
    StoreState × Option (List LineItem) :=
  let r := add_to_checkout product_id qty (echoEnv cid st acc.2) acc.1
  match r.res with
  | .ok co => (r.state, some (itemsOf co))
  | .error _ => (r.state, acc.2)

/-- A whole sequence of `add_to_checkout` calls for one product against
the echo server, starting with no session. -/
def addLoop (cid st product_id : String) (catalog : List Product)
    (qtys : List Int) : StoreState × Option (List LineItem) :=
  qtys.foldl (addLoopStep cid st product_id) (initialStore catalog, none)

theorem get_product_id {catalog : List Product} {pid : String} {p : Product}
    (h : get_product catalog pid = some p) : p.id = pid := by
  have := List.find?_some h
  simpa using this

/-! ## Lemmas about the echo loop and the merge -/

theorem addLoopStep_mid (cid st pid : String) (catalog : List Product) (p : Product)
    (hp : get_product catalog pid = some p) (acc q : Int) (cache0 : Option Checkout) :
    addLoopStep cid st pid
      ({ products := catalog, checkoutId := some cid, cache := cache0 },
        some [⟨none, ⟨pid⟩, acc⟩]) q =
      ({ products := catalog, checkoutId := some cid,
         cache := some (echoCheckout cid st [⟨none, ⟨pid⟩, acc + q⟩]) },
        some [⟨none, ⟨pid⟩, acc + q⟩]) := by
  simp [addLoopStep, add_to_checkout, echoEnv, echoCheckout, mergeAdd, itemsOf,
    M.bind, M.pure, getS, setCache, clientGetCheckout, clientUpdateCheckout,
    catchAll, liftClient, hp]

theorem addLoopStep_first (cid st pid : String) (catalog : List Product) (p : Product)
    (hp : get_product catalog pid = some p) (q : Int) :
    addLoopStep cid st pid (initialStore catalog, none) q =
      ({ products := catalog, checkoutId := some cid,
         cache := some (echoCheckout cid st [⟨none, ⟨pid⟩, q⟩]) },
        some [⟨none, ⟨pid⟩, q⟩]) := by
  have hid := get_product_id hp
  simp [addLoopStep, add_to_checkout, echoEnv, echoCheckout, _create_new_checkout,
    initialStore, itemsOf, M.bind, M.pure, getS, setCache, setCheckoutId,
    clientCreateCheckout, liftClient, hp, hid]

theorem addLoop_mid (cid st pid : String) (catalog : List Product) (p : Product)
    (hp : get_product catalog pid = some p) :
    ∀ (qtys : List Int) (acc : Int),
    qtys.foldl (addLoopStep cid st pid)
      ({ products := catalog, checkoutId := some cid,
         cache := some (echoCheckout cid st [⟨none, ⟨pid⟩, acc⟩]) },
        some [⟨none, ⟨pid⟩, acc⟩]) =
      ({ products := catalog, checkoutId := some cid,
         cache := some (echoCheckout cid st [⟨none, ⟨pid⟩, acc + qtys.sum⟩]) },
        some [⟨none, ⟨pid⟩, acc + qtys.sum⟩]) := by
  intro qtys
  induction qtys with
  | nil => intro acc; simp
  | cons q rest ih =>
    intro acc
    rw [List.foldl_cons, addLoopStep_mid cid st pid catalog p hp acc q,
      ih (acc + q)]
    simp [add_assoc]

/-! ## Claim C1 -/

/--
C1.  For every sequence of `add_to_checkout` calls with the same catalog
product id, run against a server that echoes back the submitted line
items: the resulting checkout holds exactly one line item for that
product, whose quantity is the sum of all requested quantities (first
conjunct: the final server/cache state is the singleton line item with
the summed quantity).  Moreover, whenever the product already appears
among fetched line items the merge preserves its server-assigned
line-item id while incrementing the quantity (second conjunct), and when
it does not appear a new line item is appended without a client-assigned
id (third conjunct).
-/
theorem add_to_checkout_accumulates :
    (∀ (catalog : List Product) (pid : String) (p : Product) (cid st : String)
        (qtys : List Int),
      get_product catalog pid = some p → qtys ≠ [] →
      addLoop cid st pid catalog qtys =
        ({ products := catalog, checkoutId := some cid,
           cache := some (echoCheckout cid st [⟨none, ⟨pid⟩, qtys.sum⟩]) },
          some [⟨none, ⟨pid⟩, qtys.sum⟩]))
    ∧ (∀ (items : List LineItem) (pid : String) (qty : Int) (e : LineItem),
        e ∈ items → e.item.id = pid →
        (⟨e.id, ⟨pid⟩, e.quantity + qty⟩ : LineItem) ∈ mergeAdd items pid qty)
    ∧ (∀ (items : List LineItem) (pid : String) (qty : Int),
        (∀ e ∈ items, e.item.id ≠ pid) →
        mergeAdd items pid qty = items ++ [⟨none, ⟨pid⟩, qty⟩]) := by
  refine ⟨?_, ?_, ?_⟩
  · intro catalog pid p cid st qtys hp hne
    match qtys, hne with
    | q :: rest, _ =>
      unfold addLoop
      rw [List.foldl_cons, addLoopStep_first cid st pid catalog p hp q,
        addLoop_mid cid st pid catalog p hp rest q]
      simp
  · intro items pid qty e he hid
    unfold mergeAdd
    have hany : (items.any fun item => item.item.id = pid) = true :=
      List.any_eq_true.mpr ⟨e, he, by simp [hid]⟩
    simp only [hany, if_true]
    refine List.mem_map.mpr ⟨e, he, ?_⟩
    simp [hid]
  · intro items pid qty h
    unfold mergeAdd
    have hany : (items.any fun item => item.item.id = pid) = false := by
      simp only [List.any_eq_false]
      intro e he
      simp [h e he]
    simp only [hany, if_false, Bool.false_eq_true]
    congr 1
    calc items.map _ = items.map id := by
          apply List.map_congr_left
          intro e he
          simp [h e he]
      _ = items := List.map_id items

/-- Witness for C1 at concrete inputs: adds of 2 then 3 of product `p1`
yield the single line item with quantity 5; the merge preserves the
server id `li9`; the merge appends an id-less item after non-matching
items. -/
theorem add_to_checkout_accumulates_witness :
    addLoop "chk_1" "in_progress" "p1" [⟨"p1", "Red Roses"⟩] [2, 3] =
      ({ products := [⟨"p1", "Red Roses"⟩], checkoutId := some "chk_1",
         cache := some (echoCheckout "chk_1" "in_progress"
           [⟨none, ⟨"p1"⟩, ([2, 3] : List Int).sum⟩]) },
        some [⟨none, ⟨"p1"⟩, ([2, 3] : List Int).sum⟩])
    ∧ (⟨some "li9", ⟨"p1"⟩, (7 : Int) + 4⟩ : LineItem) ∈
        mergeAdd [⟨some "li9", ⟨"p1"⟩, 7⟩] "p1" 4
    ∧ mergeAdd [⟨some "li1", ⟨"other"⟩, 1⟩] "p1" 4 =
        [⟨some "li1", ⟨"other"⟩, 1⟩] ++ [⟨none, ⟨"p1"⟩, 4⟩] := by
  refine ⟨?_, ?_, ?_⟩
  · exact add_to_checkout_accumulates.1 [⟨"p1", "Red Roses"⟩] "p1"
      ⟨"p1", "Red Roses"⟩ "chk_1" "in_progress" [2, 3] rfl (by decide)
  · exact add_to_checkout_accumulates.2.1 [⟨some "li9", ⟨"p1"⟩, 7⟩] "p1" 4
      ⟨some "li9", ⟨"p1"⟩, 7⟩ (by decide) rfl
  · exact add_to_checkout_accumulates.2.2 [⟨some "li1", ⟨"other"⟩, 1⟩] "p1" 4
      (by decide)

/-! ## Claim C2 -/

/--
C2.  `update_checkout_quantity(product_id, 0)` is observably equivalent
to `remove_from_checkout(product_id)` in every environment and store
state: same request trace, same final store state (checkout id and
cached snapshot), same return value or raised error (including the local
"No active checkout session" `ValueError` when no session exists).
-/
theorem update_quantity_zero_eq_remove (env : Env) (s : StoreState)
    (product_id : String) :
    update_checkout_quantity product_id 0 env s =
      remove_from_checkout product_id env s := by
  cases h : s.checkoutId <;>
    simp [update_checkout_quantity, remove_from_checkout, M.bind, M.pure, getS,
      throwM, h]

/-! ## Concrete sample data shared by witnesses -/

/-- An environment answering every client call with a fixed result. -/
def constEnv (g u c comp can : Except UCPErr Checkout) (hex : String) : Env :=
  { getCheckout := fun _ => g
    updateCheckout := fun _ _ => u
    createCheckout := fun _ => c
    completeCheckout := fun _ _ => comp
    cancelCheckout := fun _ => can
    freshHex := hex }

def coReady : Checkout :=
  ⟨"c1", "USD", "ready_for_complete", some [],
    some ⟨"jane@example.com", "Jane", "Doe"⟩, some ⟨[]⟩⟩

def coNeedsInfo : Checkout :=
  ⟨"c1", "USD", "needs_info", some [], none, none⟩

def coDone : Checkout :=
  ⟨"c1", "USD", "completed", some [],
    some ⟨"jane@example.com", "Jane", "Doe"⟩, some ⟨[]⟩⟩

def coNew : Checkout :=
  ⟨"c2", "USD", "in_progress", some [⟨none, ⟨"p1"⟩, 2⟩], none, none⟩

def coExisting : Checkout :=
  ⟨"c1", "USD", "in_progress", some [⟨some "li1", ⟨"p9"⟩, 1⟩], none, none⟩

def errX : UCPErr := .requestError "boom" 400

def sActive : StoreState := ⟨[⟨"p1", "Red Roses"⟩], some "c1", none⟩

def sNoSession : StoreState := ⟨[⟨"p1", "Red Roses"⟩], none, none⟩

/-! ## Claim C3 -/

/--
C3.  `complete_checkout` raises the local "No active checkout session"
`ValueError` when no session exists; when the fetched checkout's status is
not exactly `"ready_for_complete"` it raises the local "Checkout not
ready" `ValueError` and leaves the store state untouched; after a
successful completion the store's `checkout_id` is `None`, the cached
snapshot is cleared, and a subsequent `get_checkout` returns `None`.
-/
theorem complete_checkout_spec (env : Env) (s : StoreState) (cid h t : String)
    (co done : Checkout) :
    (s.checkoutId = none →
      complete_checkout h t env s =
        ⟨[], s, .error (.valueError "No active checkout session")⟩)
    ∧ (s.checkoutId = some cid → env.getCheckout cid = .ok co →
        co.status ≠ "ready_for_complete" →
        (complete_checkout h t env s).res = .error (.valueError
          ("Checkout not ready. Status: " ++ co.status ++
            ". Please add buyer info and shipping address first.")) ∧
        (complete_checkout h t env s).state = s)
    ∧ (s.checkoutId = some cid → env.getCheckout cid = .ok co →
        co.status = "ready_for_complete" →
        env.completeCheckout cid (completionPaymentData env.freshHex h t) = .ok done →
        (complete_checkout h t env s).res = .ok done ∧
        (complete_checkout h t env s).state = { s with checkoutId := none, cache := none } ∧
        (∀ env2 : Env, (get_checkout env2 (complete_checkout h t env s).state).res = .ok none)) := by
  refine ⟨?_, ?_, ?_⟩
  · intro hs
    simp [complete_checkout, M.bind, M.pure, getS, throwM, hs]
  · intro hs hg hst
    constructor <;>
      simp [complete_checkout, M.bind, M.pure, getS, throwM, clientGetCheckout,
        liftClient, hs, hg, hst]
  · intro hs hg hst hc
    refine ⟨?_, ?_, ?_⟩ <;>
      simp [complete_checkout, get_checkout, M.bind, M.pure, getS, throwM,
        clientGetCheckout, clientCompleteCheckout, freshHexM, setCheckoutId,
        setCache, liftClient, hs, hg, hst, hc]

/-- Witness for C3: a not-ready checkout is rejected with the local error;
a ready one completes, clears the session, and `get_checkout` then
returns `None`. -/
theorem complete_checkout_spec_witness :
    complete_checkout "mock_payment_handler" "success_token"
        (constEnv (.ok coReady) (.error errX) (.error errX) (.ok coDone)
          (.error errX) "ab12cd34") sNoSession =
      ⟨[], sNoSession, .error (.valueError "No active checkout session")⟩
    ∧ (complete_checkout "mock_payment_handler" "success_token"
        (constEnv (.ok coNeedsInfo) (.error errX) (.error errX) (.ok coDone)
          (.error errX) "ab12cd34") sActive).res =
      .error (.valueError ("Checkout not ready. Status: " ++ coNeedsInfo.status ++
        ". Please add buyer info and shipping address first."))
    ∧ (complete_checkout "mock_payment_handler" "success_token"
        (constEnv (.ok coReady) (.error errX) (.error errX) (.ok coDone)
          (.error errX) "ab12cd34") sActive).res = .ok coDone
    ∧ (complete_checkout "mock_payment_handler" "success_token"
        (constEnv (.ok coReady) (.error errX) (.error errX) (.ok coDone)
          (.error errX) "ab12cd34") sActive).state =
      { sActive with checkoutId := none, cache := none }
    ∧ (get_checkout
        (constEnv (.ok coReady) (.error errX) (.error errX) (.ok coDone)
          (.error errX) "ab12cd34")
        (complete_checkout "mock_payment_handler" "success_token"
          (constEnv (.ok coReady) (.error errX) (.error errX) (.ok coDone)
            (.error errX) "ab12cd34") sActive).state).res = .ok none := by
  have h1 := (complete_checkout_spec
    (constEnv (.ok coReady) (.error errX) (.error errX) (.ok coDone)
      (.error errX) "ab12cd34") sNoSession "c1" "mock_payment_handler"
    "success_token" coReady coDone).1 rfl
  have h2 := ((complete_checkout_spec
    (constEnv (.ok coNeedsInfo) (.error errX) (.error errX) (.ok coDone)
      (.error errX) "ab12cd34") sActive "c1" "mock_payment_handler"
    "success_token" coNeedsInfo coDone).2.1 rfl rfl (by decide)).1
  have h3 := (complete_checkout_spec
    (constEnv (.ok coReady) (.error errX) (.error errX) (.ok coDone)
      (.error errX) "ab12cd34") sActive "c1" "mock_payment_handler"
    "success_token" coReady coDone).2.2 rfl rfl rfl rfl
  exact ⟨h1, h2, h3.1, h3.2.1, h3.2.2 _⟩

/-! ## Claim C4 -/

/-- A discovery oracle that returns a profile with the given version. -/
def profileEnv (v : String) : DiscoveryEnv := ⟨.ok ⟨v⟩⟩

/-- A client with an empty profile cache. -/
def freshClient : ClientState := ⟨none⟩

/--
C4.  `discover` with version validation enabled raises `UCPVersionError`
exactly when the merchant's version string parses as a `YYYY-MM-DD` date
chronologically older than the agent's (fixed) version `2026-01-11`; when
it is newer, equal, or unparseable, discovery proceeds and caches the
profile.  (The agent's version constant itself always parses.)  Concrete
instances: merchant `2026-01-10` raises; `2026-01-11`, `2026-01-12`, and
the unparseable `not-a-date` succeed.
-/
theorem discover_version_gate (env : DiscoveryEnv) (st : ClientState)
    (p : UcpProfile) :
    (st.cachedProfile = none → env.fetchProfile = .ok p →
      (((discover env st true true = .error (.versionError UCP_VERSION p.version)) ↔
        (∃ mv, parseDate p.version = some mv ∧ pdateLtB mv ⟨2026, 1, 11⟩ = true))
       ∧ ((∀ mv, parseDate p.version = some mv → pdateLtB mv ⟨2026, 1, 11⟩ = false) →
          discover env st true true = .ok (p, { cachedProfile := some p }))))
    ∧ discover (profileEnv "2026-01-10") freshClient true true =
        .error (.versionError "2026-01-11" "2026-01-10")
    ∧ discover (profileEnv "2026-01-11") freshClient true true =
        .ok (⟨"2026-01-11"⟩, ⟨some ⟨"2026-01-11"⟩⟩)
    ∧ discover (profileEnv "2026-01-12") freshClient true true =
        .ok (⟨"2026-01-12"⟩, ⟨some ⟨"2026-01-12"⟩⟩)
    ∧ discover (profileEnv "not-a-date") freshClient true true =
        .ok (⟨"not-a-date"⟩, ⟨some ⟨"not-a-date"⟩⟩) := by
  refine ⟨?_, by rfl, by rfl, by rfl, by rfl⟩
  intro hc hf
  have ha : parseDate UCP_VERSION = some ⟨2026, 1, 11⟩ := by decide
  simp only [discover, hc, hf, if_true, _validate_version, ha]
  cases hm : parseDate p.version with
  | none => simp [hm]
  | some mv =>
    cases hlt : pdateLtB mv ⟨2026, 1, 11⟩ with
    | false => simp [hm, hlt]
    | true =>
      constructor
      · simp [hm, hlt]
      · intro hall
        exact absurd (hall mv rfl) (by simp [hlt])

/-- Witness for C4: the strictly-older merchant version `2026-01-10` is
exactly the raising case. -/
theorem discover_version_gate_witness :
    discover (profileEnv "2026-01-10") freshClient true true =
      .error (.versionError UCP_VERSION "2026-01-10")
    ∧ (∃ mv, parseDate "2026-01-10" = some mv ∧ pdateLtB mv ⟨2026, 1, 11⟩ = true) := by
  have h := (discover_version_gate (profileEnv "2026-01-10") freshClient
    ⟨"2026-01-10"⟩).1 rfl rfl
  have hex : ∃ mv, parseDate "2026-01-10" = some mv ∧
      pdateLtB mv ⟨2026, 1, 11⟩ = true :=
    ⟨⟨2026, 1, 10⟩, by decide, by decide⟩
  exact ⟨h.1.mpr hex, hex⟩

/-! ## Claim C6 -/

/--
C6.  When an active session exists and fetching the existing checkout
fails during `add_to_checkout`, the error is not propagated: the store
issues a create for a brand-new checkout holding exactly the requested
line item, sets `checkout_id` to the new session's id, caches the new
checkout, and returns it.
-/
theorem add_recovers_on_fetch_failure (env : Env) (s : StoreState)
    (cid pid : String) (qty : Int) (p : Product) (e : UCPErr) (newCo : Checkout)
    (hs : s.checkoutId = some cid)
    (hp : get_product s.products pid = some p)
    (hg : env.getCheckout cid = .error e)
    (hc : env.createCheckout ⟨"USD", [⟨⟨p.id⟩, qty⟩], []⟩ = .ok newCo) :
    add_to_checkout pid qty env s =
      ⟨[.get cid, .create ⟨"USD", [⟨⟨p.id⟩, qty⟩], []⟩],
       { s with checkoutId := some newCo.id, cache := some newCo }, .ok newCo⟩ := by
  simp [add_to_checkout, _create_new_checkout, catchAll, M.bind, M.pure, getS,
    setCache, setCheckoutId, clientGetCheckout, clientCreateCheckout, liftClient,
    hs, hp, hg, hc]

/-- Witness for C6 at concrete inputs. -/
theorem add_recovers_on_fetch_failure_witness :
    add_to_checkout "p1" 2
        (constEnv (.error errX) (.error errX) (.ok coNew) (.error errX)
          (.error errX) "x") sActive =
      ⟨[.get "c1", .create ⟨"USD", [⟨⟨"p1"⟩, 2⟩], []⟩],
       { sActive with checkoutId := some coNew.id, cache := some coNew },
       .ok coNew⟩ :=
  add_recovers_on_fetch_failure
    (constEnv (.error errX) (.error errX) (.ok coNew) (.error errX)
      (.error errX) "x") sActive "c1" "p1" 2 ⟨"p1", "Red Roses"⟩ errX coNew
    rfl rfl rfl rfl

/-! ## Claim C7 -/

/--
C7.  The catch-all recovery in `add_to_checkout`'s existing-session path
fires on *any* exception in the try block — here, a failure of the update
submission itself after a successful fetch — and the replacement checkout
is created with only the newly requested line item (the previously
fetched items are not carried over), silently switching `checkout_id` to
the new session's id.
-/
theorem add_catchall_covers_update_failure (env : Env) (s : StoreState)
    (cid pid : String) (qty : Int) (p : Product) (existing : Checkout)
    (e : UCPErr) (newCo : Checkout)
    (hs : s.checkoutId = some cid)
    (hp : get_product s.products pid = some p)
    (hg : env.getCheckout cid = .ok existing)
    (hu : env.updateCheckout cid
      ⟨cid, existing.currency, mergeAdd (itemsOf existing) pid qty, [], none, none⟩ =
      .error e)
    (hc : env.createCheckout ⟨"USD", [⟨⟨p.id⟩, qty⟩], []⟩ = .ok newCo) :
    add_to_checkout pid qty env s =
      ⟨[.get cid,
        .update cid ⟨cid, existing.currency, mergeAdd (itemsOf existing) pid qty,
          [], none, none⟩,
        .create ⟨"USD", [⟨⟨p.id⟩, qty⟩], []⟩],
       { s with checkoutId := some newCo.id, cache := some newCo }, .ok newCo⟩ := by
  simp [add_to_checkout, _create_new_checkout, catchAll, M.bind, M.pure, getS,
    setCache, setCheckoutId, clientGetCheckout, clientUpdateCheckout,
    clientCreateCheckout, liftClient, hs, hp, hg, hu, hc]

/-- Witness for C7 at concrete inputs: the fetched checkout holds an
unrelated line item, the update fails, and the replacement session is
created with only the new item. -/
theorem add_catchall_covers_update_failure_witness :
    add_to_checkout "p1" 2
        (constEnv (.ok coExisting) (.error errX) (.ok coNew) (.error errX)
          (.error errX) "x") sActive =
      ⟨[.get "c1",
        .update "c1" ⟨"c1", coExisting.currency,
          mergeAdd (itemsOf coExisting) "p1" 2, [], none, none⟩,
        .create ⟨"USD", [⟨⟨"p1"⟩, 2⟩], []⟩],
       { sActive with checkoutId := some coNew.id, cache := some coNew },
       .ok coNew⟩ :=
  add_catchall_covers_update_failure
    (constEnv (.ok coExisting) (.error errX) (.ok coNew) (.error errX)
      (.error errX) "x") sActive "c1" "p1" 2 ⟨"p1", "Red Roses"⟩ coExisting
    errX coNew rfl rfl rfl rfl rfl

/-! ## Claim C9 -/

/--
C9.  With an active session, `start_payment` returns (does not raise) a
human-readable message listing the missing prerequisites — mentioning the
buyer email exactly when the fetched checkout has no buyer and the
shipping address exactly when it has no fulfillment data — and returns
the checkout itself when neither is missing; the local state error is
raised only when no active session exists.
-/
theorem start_payment_missing_prereqs (env : Env) (s : StoreState)
    (cid : String) (co : Checkout) :
    (s.checkoutId = none →
      start_payment env s = ⟨[], s, .error (.valueError "No active checkout session")⟩)
    ∧ (s.checkoutId = some cid → env.getCheckout cid = .ok co →
        co.buyer = none → co.fulfillment = none →
        (start_payment env s).res =
          .ok (.inr "Please provide: buyer email address, shipping address"))
    ∧ (s.checkoutId = some cid → env.getCheckout cid = .ok co →
        co.buyer = none → co.fulfillment ≠ none →
        (start_payment env s).res = .ok (.inr "Please provide: buyer email address"))
    ∧ (s.checkoutId = some cid → env.getCheckout cid = .ok co →
        co.buyer ≠ none → co.fulfillment = none →
        (start_payment env s).res = .ok (.inr "Please provide: shipping address"))
    ∧ (s.checkoutId = some cid → env.getCheckout cid = .ok co →
        co.buyer ≠ none → co.fulfillment ≠ none →
        (start_payment env s).res = .ok (.inl co) ∧
        (start_payment env s).state = { s with cache := some co }) := by
  refine ⟨?_, ?_, ?_, ?_, ?_⟩
  · intro hs
    simp [start_payment, M.bind, M.pure, getS, throwM, hs]
  · intro hs hg hb hf
    simp [start_payment, M.bind, M.pure, getS, throwM, clientGetCheckout,
      liftClient, setCache, hs, hg, hb, hf]
    decide
  · intro hs hg hb hf
    simp [start_payment, M.bind, M.pure, getS, throwM, clientGetCheckout,
      liftClient, setCache, hs, hg, hb, hf]
    decide
  · intro hs hg hb hf
    simp [start_payment, M.bind, M.pure, getS, throwM, clientGetCheckout,
      liftClient, setCache, hs, hg, hb, hf]
    decide
  · intro hs hg hb hf
    constructor <;>
      simp [start_payment, M.bind, M.pure, getS, throwM, clientGetCheckout,
        liftClient, setCache, hs, hg, hb, hf]

/-- Witness for C9: a checkout with neither buyer nor fulfillment yields
the two-item message; a complete one is returned as a value. -/
theorem start_payment_missing_prereqs_witness :
    (start_payment
        (constEnv (.ok coNeedsInfo) (.error errX) (.error errX) (.error errX)
          (.error errX) "x") sActive).res =
      .ok (.inr "Please provide: buyer email address, shipping address")
    ∧ (start_payment
        (constEnv (.ok coReady) (.error errX) (.error errX) (.error errX)
          (.error errX) "x") sActive).res = .ok (.inl coReady) := by
  refine ⟨?_, ?_⟩
  · exact (start_payment_missing_prereqs
      (constEnv (.ok coNeedsInfo) (.error errX) (.error errX) (.error errX)
        (.error errX) "x") sActive "c1" coNeedsInfo).2.1 rfl rfl rfl rfl
  · exact ((start_payment_missing_prereqs
      (constEnv (.ok coReady) (.error errX) (.error errX) (.error errX)
        (.error errX) "x") sActive "c1" coReady).2.2.2.2 rfl rfl
      (by simp [coReady]) (by simp [coReady])).1

/-! ## Claim C5 -/

/-- A 404 response whose body decodes to a JSON array (not an object). -/
def nonObjectBodyResponse : HttpResponse := ⟨404, some (.arr [.num 1]), "[1]"⟩

/--
Counterexample to C5 as stated: a 404 response whose body is valid JSON
but not an object (here `[1]`) does *not* yield a `UCPNotFoundError` —
`error_data.get("message")` is called on a list, so an unhandled
`AttributeError` escapes `_parse_error_response` instead.
-/
theorem parse_error_nonobject_counterexample :
    _handle_response nonObjectBodyResponse = .pyFailure .attributeError ∧
    _parse_error_response nonObjectBodyResponse = .error .attributeError :=
  ⟨rfl, rfl⟩

/-- The `message` value `_parse_error_response` extracts from a decoded
object body: `error_data.get("message") or error_data.get("detail") or
str(error_data)`. -/
def extractedMessage (fields : List (String × JVal)) : JVal :=
  pyOr (dictGet fields "message")
    (pyOr (dictGet fields "detail") (.str (pyStr (.obj fields))))

theorem fieldErrorsOfDetail_length :
    ∀ (l : List JVal) (r : List FieldError),
      fieldErrorsOfDetail l = .ok r → r.length = l.length := by
  intro l
  induction l with
  | nil =>
    intro r h
    cases h
    rfl
  | cons a l ih =>
    intro r h
    unfold fieldErrorsOfDetail at h
    cases hf : fieldErrorOfItem a with
    | error e => simp [hf, bind, Except.bind] at h
    | ok fe =>
      cases hm : fieldErrorsOfDetail l with
      | error e => simp [hf, hm, bind, Except.bind] at h
      | ok fes =>
        simp only [hf, hm, bind, Except.bind, pure, Except.pure] at h
        cases h
        simp [ih fes hm]

/--
C5 (amended).  For every HTTP response whose decoded error body is a JSON
*object* (or whose body fails to decode — non-object bodies instead
escape with `AttributeError`, see the counterexample): a 2xx response
yields its decoded JSON body; a 422 whose body has a `detail` list of
well-formed items yields a `UCPValidationError` with exactly one
field-error entry per item, each entry's field path being the dot-joined
`loc` segments and its message the item's `msg`; a 404 yields
`UCPNotFoundError`; a 400 yields `UCPRequestError`; any other non-2xx
status yields the generic error carrying the raw status and body; and on
a body-decode failure the extracted message falls back to the raw
response text.
-/
theorem parse_error_classification (resp : HttpResponse) (j : JVal)
    (fields : List (String × JVal)) (items : List JVal) (fes : List FieldError)
    (locs : List JVal) (msgv : JVal) :
    (responseIsSuccess resp = true → resp.jsonBody = some j →
      _handle_response resp = .success j)
    ∧ (resp.statusCode = 422 → errorDataOf resp = .obj fields →
        dictGet fields "detail" = some (.arr items) →
        fieldErrorsOfDetail items = .ok fes →
        _handle_response resp = .ucpFailure (.validationError
          (.str ("Invalid request: " ++ toString fes.length ++ " field(s) have errors")) fes)
        ∧ fes.length = items.length)
    ∧ (locs ≠ [] →
        fieldErrorOfItem (.obj [("loc", .arr locs), ("msg", msgv)]) =
          .ok ⟨String.intercalate "." (locs.map pyStr), msgv⟩)
    ∧ (resp.statusCode = 404 → errorDataOf resp = .obj fields →
        _handle_response resp = .ucpFailure (.notFoundError (extractedMessage fields) 404))
    ∧ (resp.statusCode = 400 → errorDataOf resp = .obj fields →
        _handle_response resp = .ucpFailure (.requestError
          ("Bad request: " ++ pyStr (extractedMessage fields)) 400))
    ∧ (responseIsSuccess resp = false →
        resp.statusCode ≠ 422 → resp.statusCode ≠ 404 → resp.statusCode ≠ 400 →
        errorDataOf resp = .obj fields →
        _handle_response resp = .ucpFailure (.protocolError (extractedMessage fields)
          resp.statusCode (.obj fields)))
    ∧ (resp.jsonBody = none → resp.text ≠ "" →
        errorDataOf resp = .obj [("message", .str resp.text)]
        ∧ extractedMessage [("message", .str resp.text)] = .str resp.text) := by
  refine ⟨?_, ?_, ?_, ?_, ?_, ?_, ?_⟩
  · intro hok hj
    simp [_handle_response, hok, hj]
  · intro hst hed hdet hmap
    have hns : responseIsSuccess resp = false := by
      simp [responseIsSuccess, hst]
    refine ⟨?_, fieldErrorsOfDetail_length items fes hmap⟩
    simp [_handle_response, hns, _parse_error_response, hed, hdet, hst, hmap,
      jvGet, bind, Except.bind, pure, Except.pure, extractedMessage]
  · intro hlocs
    simp [fieldErrorOfItem, jvGet, dictGet, fieldOfLoc, truthy, hlocs,
      bind, Except.bind, pure, Except.pure]
  · intro hst hed
    have hns : responseIsSuccess resp = false := by
      simp [responseIsSuccess, hst]
    simp [_handle_response, hns, _parse_error_response, hed, hst,
      jvGet, bind, Except.bind, pure, Except.pure, extractedMessage]
  · intro hst hed
    have hns : responseIsSuccess resp = false := by
      simp [responseIsSuccess, hst]
    simp [_handle_response, hns, _parse_error_response, hed, hst,
      jvGet, bind, Except.bind, pure, Except.pure, extractedMessage]
  · intro hns h422 h404 h400 hed
    simp [_handle_response, hns, _parse_error_response, hed, h422, h404, h400,
      jvGet, bind, Except.bind, pure, Except.pure, extractedMessage]
  · intro hb ht
    constructor
    · simp [errorDataOf, hb, ht]
    · simp [extractedMessage, pyOr, dictGet, truthy, ht]

/-- Witness for the amended C5 at concrete responses of every class. -/
theorem parse_error_classification_witness :
    _handle_response ⟨200, some (.obj [("id", .str "c1")]), ""⟩ =
      .success (.obj [("id", .str "c1")])
    ∧ _handle_response ⟨422, some (.obj [("detail",
        .arr [.obj [("loc", .arr [.str "body", .str "currency"]),
                    ("msg", .str "field required")]])]), ""⟩ =
      .ucpFailure (.validationError (.str "Invalid request: 1 field(s) have errors")
        [⟨"body.currency", .str "field required"⟩])
    ∧ fieldErrorOfItem (.obj [("loc", .arr [.str "body", .str "currency"]),
        ("msg", .str "field required")]) =
      .ok ⟨"body.currency", .str "field required"⟩
    ∧ _handle_response ⟨404, some (.obj [("message", .str "not found")]), ""⟩ =
      .ucpFailure (.notFoundError (.str "not found") 404)
    ∧ _handle_response ⟨400, some (.obj [("message", .str "bad")]), ""⟩ =
      .ucpFailure (.requestError "Bad request: bad" 400)
    ∧ _handle_response ⟨500, none, "oops"⟩ =
      .ucpFailure (.protocolError (.str "oops") 500 (.obj [("message", .str "oops")])) := by
  refine ⟨?_, ?_, ?_, ?_, ?_, ?_⟩
  · exact (parse_error_classification ⟨200, some (.obj [("id", .str "c1")]), ""⟩
      (.obj [("id", .str "c1")]) [] [] [] [] .null).1 rfl rfl
  · exact ((parse_error_classification ⟨422, some (.obj [("detail",
        .arr [.obj [("loc", .arr [.str "body", .str "currency"]),
                    ("msg", .str "field required")]])]), ""⟩ .null
      [("detail", .arr [.obj [("loc", .arr [.str "body", .str "currency"]),
          ("msg", .str "field required")]])]
      [.obj [("loc", .arr [.str "body", .str "currency"]),
          ("msg", .str "field required")]]
      [⟨"body.currency", .str "field required"⟩] [] .null).2.1
      rfl rfl rfl rfl).1
  · exact (parse_error_classification ⟨0, none, ""⟩ .null [] [] []
      [.str "body", .str "currency"] (.str "field required")).2.2.1 (by simp)
  · exact (parse_error_classification ⟨404, some (.obj [("message", .str "not found")]), ""⟩
      .null [("message", .str "not found")] [] [] [] .null).2.2.2.1 rfl rfl
  · exact (parse_error_classification ⟨400, some (.obj [("message", .str "bad")]), ""⟩
      .null [("message", .str "bad")] [] [] [] .null).2.2.2.2.1 rfl rfl
  · exact (parse_error_classification ⟨500, none, "oops"⟩
      .null [("message", .str "oops")] [] [] [] .null).2.2.2.2.2.1 rfl
      (by decide) (by decide) (by decide) rfl

/-! ## Claim C10 -/

/-- A concrete parsing oracle for the C10 witness: only the exact text
`[1]` is valid JSON (an array), and the schema accepts everything. -/
def sampleA2uiEnv : A2UIEnv :=
  ⟨fun s => if s = "[1]" then some (.arr [.num 1]) else none, fun _ => true⟩

/--
C10.  `parse_a2ui_response` never raises (it is a total function of the
response and the parsing oracles): without the delimiter it returns the
whole input and no messages; with the delimiter followed by blank text,
unparseable JSON, or schema-invalid JSON it returns the stripped text
portion and no messages; with the delimiter followed by a schema-valid
JSON array it returns the stripped text portion and the parsed array
unchanged.  The last two conjuncts characterize `validate_a2ui_json`
itself on fence-free input: a loadable array accepted by the schema
validates to exactly that array, and unparseable text is rejected.
-/
theorem parse_a2ui_total_behavior (env : A2UIEnv) (response : String)
    (pre post : List Char) (msgs : List JVal) (js : String) :
    (findDelim A2UI_DELIMITER.data response.data = none →
      parse_a2ui_response env response = (response, none))
    ∧ (findDelim A2UI_DELIMITER.data response.data = some (pre, post) →
        pyStrip ⟨post⟩ = "" →
        parse_a2ui_response env response = (pyStrip ⟨pre⟩, none))
    ∧ (findDelim A2UI_DELIMITER.data response.data = some (pre, post) →
        pyStrip ⟨post⟩ ≠ "" →
        (validate_a2ui_json env (pyStrip ⟨post⟩)).1 = false →
        parse_a2ui_response env response = (pyStrip ⟨pre⟩, none))
    ∧ (findDelim A2UI_DELIMITER.data response.data = some (pre, post) →
        pyStrip ⟨post⟩ ≠ "" →
        validate_a2ui_json env (pyStrip ⟨post⟩) = (true, some msgs, none) →
        parse_a2ui_response env response = (pyStrip ⟨pre⟩, some msgs))
    ∧ (¬ "```".data.isPrefixOf (pyStrip js).data →
        env.loads (pyStrip js) = some (.arr msgs) →
        env.schemaValid (.arr msgs) = true →
        validate_a2ui_json env js = (true, some msgs, none))
    ∧ (¬ "```".data.isPrefixOf (pyStrip js).data →
        env.loads (pyStrip js) = none →
        validate_a2ui_json env js = (false, none, some "Invalid JSON")) := by
  refine ⟨?_, ?_, ?_, ?_, ?_, ?_⟩
  · intro hfind
    simp [parse_a2ui_response, hfind]
  · intro hfind hempty
    simp [parse_a2ui_response, hfind, hempty]
  · intro hfind hne hval
    rcases hv2 : validate_a2ui_json env (pyStrip ⟨post⟩) with ⟨b, pd, em⟩
    rw [hv2] at hval
    simp at hval
    subst hval
    simp [parse_a2ui_response, hfind, hne, hv2]
  · intro hfind hne hval
    simp [parse_a2ui_response, hfind, hne, hval]
  · intro hsw hload hschema
    simp [validate_a2ui_json, hsw, hload, hschema]
  · intro hsw hload
    simp [validate_a2ui_json, hsw, hload]

/-- Witness for C10 at the spec's own examples: a valid array after the
delimiter is returned unchanged, invalid JSON degrades to "no UI
payload", and delimiter-free text passes through. -/
theorem parse_a2ui_total_behavior_witness :
    parse_a2ui_response sampleA2uiEnv "Hi---a2ui_JSON---[1]" = ("Hi", some [.num 1])
    ∧ parse_a2ui_response sampleA2uiEnv
        "Here are flowers---a2ui_JSON---[invalid json" = ("Here are flowers", none)
    ∧ parse_a2ui_response sampleA2uiEnv "no ui here" = ("no ui here", none) := by
  refine ⟨?_, ?_, ?_⟩
  · exact (parse_a2ui_total_behavior sampleA2uiEnv "Hi---a2ui_JSON---[1]"
      "Hi".data "[1]".data [.num 1] "[1]").2.2.2.1 (by decide) (by decide) (by rfl)
  · exact (parse_a2ui_total_behavior sampleA2uiEnv
      "Here are flowers---a2ui_JSON---[invalid json"
      "Here are flowers".data "[invalid json".data [] "x").2.2.1 (by decide)
      (by decide) (by decide)
  · exact (parse_a2ui_total_behavior sampleA2uiEnv "no ui here" [] [] [] "x").1
      (by decide)

/-! ## Claim C8: error outcomes never mutate local state

Compositional predicates over the store monad: `StateConst` (the
computation never writes the store state), `NeverErr` (it always
succeeds), `Pres` (on an error outcome the state is unchanged). -/

def StateConst (m : M α) : Prop := ∀ env s, (m env s).state = s

def NeverErr (m : M α) : Prop := ∀ env s, ∃ a, (m env s).res = .ok a

def Pres (m : M α) : Prop :=
  ∀ env s e, (m env s).res = .error e → (m env s).state = s

theorem stateConst_pres (m : M α) (h : StateConst m) : Pres m :=
  fun env s _ _ => h env s

theorem neverErr_pres (m : M α) (h : NeverErr m) : Pres m := by
  intro env s e he
  obtain ⟨a, ha⟩ := h env s
  rw [ha] at he
  cases he

theorem stateConst_getS : StateConst getS := fun _ _ => rfl

theorem stateConst_throwM (e : StoreError) : StateConst (throwM e : M α) :=
  fun _ _ => rfl

theorem stateConst_freshHexM : StateConst freshHexM := fun _ _ => rfl

theorem stateConst_clientGet (cid : String) : StateConst (clientGetCheckout cid) :=
  fun _ _ => rfl

theorem stateConst_clientUpdate (cid : String) (req : CheckoutUpdateRequest) :
    StateConst (clientUpdateCheckout cid req) := fun _ _ => rfl

theorem stateConst_clientCreate (req : CheckoutCreateRequest) :
    StateConst (clientCreateCheckout req) := fun _ _ => rfl

theorem stateConst_clientComplete (cid : String) (pd : PaymentData)
    (risk : List (String × String)) :
    StateConst (clientCompleteCheckout cid pd risk) := fun _ _ => rfl

theorem stateConst_clientCancel (cid : String) :
    StateConst (clientCancelCheckout cid) := fun _ _ => rfl

theorem stateConst_bind (x : M α) (f : α → M β) (hx : StateConst x)
    (hf : ∀ a, StateConst (f a)) : StateConst (x >>= f) := by
  intro env s
  show (M.bind x f env s).state = s
  unfold M.bind
  cases hr : (x env s).res with
  | error e => simp only [hr]; exact hx env s
  | ok a =>
    simp only [hr]
    rw [hf a env (x env s).state, hx env s]

theorem bind_pres_left (x : M α) (f : α → M β) (hx : StateConst x)
    (hf : ∀ a, Pres (f a)) : Pres (x >>= f) := by
  intro env s e h
  replace h : (M.bind x f env s).res = .error e := h
  show (M.bind x f env s).state = s
  unfold M.bind at h ⊢
  cases hr : (x env s).res with
  | error e2 => simp only [hr]; exact hx env s
  | ok a =>
    simp only [hr] at h ⊢
    rw [hx env s] at h ⊢
    exact hf a env s e h

theorem bind_pres_right (x : M α) (f : α → M β) (hx : Pres x)
    (hf : ∀ a, NeverErr (f a)) : Pres (x >>= f) := by
  intro env s e h
  replace h : (M.bind x f env s).res = .error e := h
  show (M.bind x f env s).state = s
  unfold M.bind at h ⊢
  cases hr : (x env s).res with
  | error e2 =>
    simp only [hr] at h ⊢
    exact hx env s e2 hr
  | ok a =>
    simp only [hr] at h ⊢
    obtain ⟨b, hb⟩ := hf a env (x env s).state
    rw [hb] at h
    cases h

theorem catchAll_pres (body handler : M α) (hb : Pres body) (hh : Pres handler) :
    Pres (catchAll body handler) := by
  intro env s e h
  unfold catchAll at h ⊢
  cases hr : (body env s).res with
  | ok a => simp only [hr] at h; cases h
  | error e2 =>
    simp only [hr] at h ⊢
    cases hr2 : (handler env (body env s).state).res with
    | ok a => simp only [hr2] at h; cases h
    | error e3 =>
      rw [hh env (body env s).state e3 hr2]
      exact hb env s e2 hr

theorem pres_ite (c : Prop) [Decidable c] (x y : M α) (hx : Pres x) (hy : Pres y) :
    Pres (if c then x else y) := by
  by_cases h : c
  · simpa [h] using hx
  · simpa [h] using hy

theorem neverErr_ite (c : Prop) [Decidable c] (x y : M α) (hx : NeverErr x)
    (hy : NeverErr y) : NeverErr (if c then x else y) := by
  by_cases h : c
  · simpa [h] using hx
  · simpa [h] using hy

theorem neverErr_pure (a : α) : NeverErr (M.pure a) := fun _ _ => ⟨a, rfl⟩

theorem neverErr_cache_tail (v : Option Checkout) (a : α) :
    NeverErr ((setCache v) >>= fun _ => M.pure a) := fun _ _ => ⟨a, rfl⟩

theorem neverErr_clear_tail (a : α) :
    NeverErr ((setCheckoutId none) >>= fun _ => (setCache none) >>= fun _ => M.pure a) :=
  fun _ _ => ⟨a, rfl⟩

theorem neverErr_newid_tail (v : Option String) (a : α) :
    NeverErr ((setCheckoutId v) >>= fun _ => M.pure a) := fun _ _ => ⟨a, rfl⟩

theorem create_pres (items : List LineItemCreate) :
    Pres (_create_new_checkout items) := by
  unfold _create_new_checkout
  apply bind_pres_right _ _ (stateConst_pres _ (stateConst_clientCreate _))
  intro co
  exact neverErr_newid_tail _ _

theorem add_pres (pid : String) (q : Int) : Pres (add_to_checkout pid q) := by
  unfold add_to_checkout
  apply bind_pres_left _ _ stateConst_getS
  intro s'
  cases get_product s'.products pid with
  | none => exact stateConst_pres _ (stateConst_throwM _)
  | some p =>
    dsimp only
    cases s'.checkoutId with
    | none =>
      exact bind_pres_right _ _ (create_pres _) (fun y => neverErr_cache_tail _ _)
    | some cid =>
      refine bind_pres_right _ _ ?_ (fun y => neverErr_cache_tail _ _)
      apply catchAll_pres
      · exact stateConst_pres _ (stateConst_bind _ _ (stateConst_clientGet _)
          (fun ex => stateConst_clientUpdate _ _))
      · exact create_pres _

theorem remove_pres (pid : String) : Pres (remove_from_checkout pid) := by
  unfold remove_from_checkout
  apply bind_pres_left _ _ stateConst_getS
  intro s'
  cases s'.checkoutId with
  | none => exact stateConst_pres _ (stateConst_throwM _)
  | some cid =>
    apply bind_pres_left _ _ (stateConst_clientGet cid)
    intro ex
    apply bind_pres_right _ _ (stateConst_pres _ (stateConst_clientUpdate _ _))
    intro co
    exact neverErr_cache_tail _ _

theorem updateQty_pres (pid : String) (q : Int) :
    Pres (update_checkout_quantity pid q) := by
  unfold update_checkout_quantity
  apply bind_pres_left _ _ stateConst_getS
  intro s'
  cases s'.checkoutId with
  | none => exact stateConst_pres _ (stateConst_throwM _)
  | some cid =>
    apply pres_ite
    · exact remove_pres pid
    · apply bind_pres_left _ _ (stateConst_clientGet cid)
      intro ex
      apply bind_pres_right _ _ (stateConst_pres _ (stateConst_clientUpdate _ _))
      intro co
      exact neverErr_cache_tail _ _

theorem updateCustomer_pres (fn ln sa al ar pc ac : String)
    (ea em : Option String) :
    Pres (update_customer_details fn ln sa al ar pc ac ea em) := by
  unfold update_customer_details
  apply bind_pres_left _ _ stateConst_getS
  intro s'
  cases s'.checkoutId with
  | none => exact stateConst_pres _ (stateConst_throwM _)
  | some cid =>
    apply bind_pres_left _ _ (stateConst_clientGet cid)
    intro ex
    apply bind_pres_left _ _ stateConst_freshHexM
    intro hex
    apply bind_pres_left _ _ (stateConst_clientUpdate _ _)
    intro co
    cases co.fulfillment with
    | none => exact stateConst_pres _ (stateConst_throwM _)
    | some f1 =>
      dsimp only
      cases f1.methods with
      | nil => exact neverErr_pres _ (neverErr_cache_tail _ _)
      | cons method rest =>
        dsimp only
        cases method.destinations with
        | nil => exact neverErr_pres _ (neverErr_cache_tail _ _)
        | cons dest drest =>
          dsimp only
          apply bind_pres_left _ _ (stateConst_clientUpdate _ _)
          intro co2
          cases co2.fulfillment with
          | none => exact stateConst_pres _ (stateConst_throwM _)
          | some f2 =>
            dsimp only
            cases f2.methods with
            | nil => exact neverErr_pres _ (neverErr_cache_tail _ _)
            | cons m2 r2 =>
              dsimp only
              cases m2.groups with
              | nil => exact neverErr_pres _ (neverErr_cache_tail _ _)
              | cons g gr =>
                dsimp only
                cases g.options with
                | nil => exact neverErr_pres _ (neverErr_cache_tail _ _)
                | cons o orest =>
                  dsimp only
                  apply bind_pres_right _ _
                    (stateConst_pres _ (stateConst_clientUpdate _ _))
                  intro co3
                  exact neverErr_cache_tail _ _

theorem startPayment_pres : Pres start_payment := by
  unfold start_payment
  apply bind_pres_left _ _ stateConst_getS
  intro s'
  cases s'.checkoutId with
  | none => exact stateConst_pres _ (stateConst_throwM _)
  | some cid =>
    apply bind_pres_right _ _ (stateConst_pres _ (stateConst_clientGet cid))
    intro co
    exact neverErr_ite _ _ _ (neverErr_pure _) (neverErr_cache_tail _ _)

theorem complete_pres (h t : String) : Pres (complete_checkout h t) := by
  unfold complete_checkout
  apply bind_pres_left _ _ stateConst_getS
  intro s'
  cases s'.checkoutId with
  | none => exact stateConst_pres _ (stateConst_throwM _)
  | some cid =>
    apply bind_pres_left _ _ (stateConst_clientGet cid)
    intro co
    apply pres_ite
    · exact stateConst_pres _ (stateConst_throwM _)
    · apply bind_pres_left _ _ stateConst_freshHexM
      intro hex
      apply bind_pres_right _ _
        (stateConst_pres _ (stateConst_clientComplete _ _ _))
      intro done
      exact neverErr_clear_tail _

theorem cancel_pres : Pres cancel_checkout := by
  unfold cancel_checkout
  apply bind_pres_left _ _ stateConst_getS
  intro s'
  cases s'.checkoutId with
  | none => exact stateConst_pres _ (stateConst_throwM _)
  | some cid =>
    apply bind_pres_right _ _ (stateConst_pres _ (stateConst_clientCancel cid))
    intro co
    exact neverErr_clear_tail _

theorem getCheckout_pres : Pres get_checkout := by
  unfold get_checkout
  apply bind_pres_left _ _ stateConst_getS
  intro s'
  cases s'.checkoutId with
  | none => exact neverErr_pres _ (neverErr_pure _)
  | some cid =>
    apply bind_pres_right _ _ (stateConst_pres _ (stateConst_clientGet cid))
    intro co
    exact neverErr_cache_tail _ _

theorem runOp_pres (op : StoreOp) : Pres (runOp op) := by
  cases op with
  | add pid q =>
    exact bind_pres_right _ _ (add_pres pid q) (fun c => neverErr_pure _)
  | remove pid =>
    exact bind_pres_right _ _ (remove_pres pid) (fun c => neverErr_pure _)
  | updateQty pid q =>
    exact bind_pres_right _ _ (updateQty_pres pid q) (fun c => neverErr_pure _)
  | updateCustomer fn ln sa al ar pc ac ea em =>
    exact bind_pres_right _ _ (updateCustomer_pres fn ln sa al ar pc ac ea em)
      (fun c => neverErr_pure _)
  | startPayment =>
    exact bind_pres_right _ _ startPayment_pres (fun c => neverErr_pure _)
  | complete h t =>
    exact bind_pres_right _ _ (complete_pres h t) (fun c => neverErr_pure _)
  | cancel =>
    exact bind_pres_right _ _ cancel_pres (fun c => neverErr_pure _)
  | getCheckoutOp =>
    exact bind_pres_right _ _ getCheckout_pres (fun c => neverErr_pure _)

/--
C8.  For every store operation (`add_to_checkout`, `remove_from_checkout`,
`update_checkout_quantity`, `update_customer_details`, `start_payment`,
`complete_checkout`, `cancel_checkout`, `get_checkout`) and every client
environment and store state: if the operation's outcome is a raised
error, the store's `checkout_id` and cached checkout snapshot are exactly
what they were before the call — local state is mutated only after a
successful response round-trip.
-/
theorem store_ops_error_preserves_state (op : StoreOp) (env : Env)
    (s : StoreState) (e : StoreError)
    (h : (runOp op env s).res = .error e) : (runOp op env s).state = s :=
  runOp_pres op env s e h

/-- Witness for C8: a local-state error (`remove` with no session) and a
propagated client error (`update_checkout_quantity` whose fetch fails)
both leave the store state unchanged. -/
theorem store_ops_error_preserves_state_witness :
    (runOp (.remove "p1")
        (constEnv (.error errX) (.error errX) (.error errX) (.error errX)
          (.error errX) "x") sNoSession).res =
      .error (.valueError "No active checkout session")
    ∧ (runOp (.remove "p1")
        (constEnv (.error errX) (.error errX) (.error errX) (.error errX)
          (.error errX) "x") sNoSession).state = sNoSession
    ∧ (runOp (.updateQty "p1" 3)
        (constEnv (.error errX) (.error errX) (.error errX) (.error errX)
          (.error errX) "x") sActive).res = .error (.clientError errX)
    ∧ (runOp (.updateQty "p1" 3)
        (constEnv (.error errX) (.error errX) (.error errX) (.error errX)
          (.error errX) "x") sActive).state = sActive :=
  ⟨rfl, store_ops_error_preserves_state _ _ _ _ rfl,
   rfl, store_ops_error_preserves_state _ _ _ _ rfl⟩

end UCP
